import Mathlib

/-
Verification of the branch reconciliation engine of gh-sync.

The engine (main.go `sync`, `isSquashMerged`; internal/git `Range`) drives a
version-control backend through the primitives of internal/git/git.go.  Each
primitive that shells out to git is modelled as a field of the `Backend`
oracle below: the field records the (trimmed) stdout or the failure that the
corresponding git invocation produced.  The decision logic of the engine is
then a pure function of the oracle, translated line by line from the source.
Mutating primitives additionally leave an `Effect` in the run's trace, so
that frame properties (what was mutated, and in which order) are provable.
-/

namespace GhSync

/-- Oracle for the git primitives of internal/git/git.go.  `Except String`
mirrors Go's `(value, error)` returns: `.error e` is a failed invocation with
error text `e`, `.ok` carries the trimmed stdout.  `branchRemote` is the
parsed `branch.*.remote` config map of `BranchRemotes` (Go map lookup, with
the zero value `""` for branches that have no entry, and for a `nil` map when
the config listing failed). -/
structure Backend where
  remoteOut : Except String String
  symbolicRefQ : String → Except String String
  currentBranchOut : Except String String
  branchListOut : Except String String
  fetchRes : String → Except String Unit
  branchRemote : String → String
  upstreamRefQ : String → Except String String
  hasRefQ : String → Bool
  revParseOut : List String → Except String String
  isAncestorQ : String → String → Bool
  mergeFFRes : String → Except String Unit
  updateRefRes : String → String → Except String Unit
  deleteBranchRes : String → Except String Unit
  checkoutRes : String → Except String Unit
  mergeBaseQ : String → String → Except String String
  treeHashQ : String → Except String String
  commitTreeQ : String → String → String → Except String String
  cherryQ : String → String → Except String String

/-- Go `strings.Split(s, "\n")` on the character list: split at every newline,
keeping empty fields. -/
def splitNl : List Char → List (List Char)
  | [] => [[]]
  | c :: rest =>
    if c = '\n' then [] :: splitNl rest
    else
      match splitNl rest with
      | [] => [[c]]
      | g :: gs => (c :: g) :: gs

/-- git.go `splitLines`: `nil` for the empty string, else `strings.Split(s, "\n")`. -/
def splitLines (s : String) : List String :=
  if s = "" then [] else (splitNl s.data).map fun cs => String.mk cs

/-- Go `strings.HasPrefix`. -/
def hasPrefixStr (s pre : String) : Bool :=
  pre.data.isPrefixOf s.data

/-- Go `strings.TrimPrefix`: drop the prefix when present, otherwise return
the string unchanged. -/
def trimPre (s pre : String) : String :=
  if hasPrefixStr s pre then String.mk (s.data.drop pre.data.length) else s

/-- Go `s[:7]` on the 40-character ASCII commit ids the engine abbreviates. -/
def take7 (s : String) : String :=
  String.mk (s.data.take 7)

/-- git.go `MainRemote`: list remotes, fail when listing fails or is empty,
prefer upstream, then github, then origin, else the first listed remote. -/
def MainRemote (b : Backend) : Except String String :=
  match b.remoteOut with
  | .error e => .error ("failed to list remotes: " ++ e)
  | .ok out =>
    match splitLines out with
    | [] => .error "no git remotes found"
    | first :: _ =>
      match ["upstream", "github", "origin"].find? (fun c => (splitLines out).contains c) with
      | some c => .ok c
      | none => .ok first

/-- git.go `HasRef`: `git show-ref --verify --quiet REF` succeeded. -/
def HasRef (b : Backend) (ref : String) : Bool :=
  b.hasRefQ ref

/-- git.go `DefaultBranch`: symbolic-ref of the remote HEAD with the remote
path trimmed, else probe for main then master, else "main". -/
def DefaultBranch (b : Backend) (remote : String) : String :=
  match b.symbolicRefQ ("refs/remotes/" ++ remote ++ "/HEAD") with
  | .ok out => trimPre out ("refs/remotes/" ++ remote ++ "/")
  | .error _ =>
    if HasRef b ("refs/remotes/" ++ remote ++ "/main") then "main"
    else if HasRef b ("refs/remotes/" ++ remote ++ "/master") then "master"
    else "main"

/-- git.go `CurrentBranch`: `git symbolic-ref --short HEAD`, failing with a
fixed message when detached. -/
def CurrentBranch (b : Backend) : Except String String :=
  match b.currentBranchOut with
  | .ok out => .ok out
  | .error _ => .error "not on any branch"

/-- git.go `LocalBranches`. -/
def LocalBranches (b : Backend) : Except String (List String) :=
  match b.branchListOut with
  | .ok out => .ok (splitLines out)
  | .error e => .error ("failed to list branches: " ++ e)

/-- git.go `Fetch` (prune and progress flags are inside the backend call). -/
def Fetch (b : Backend) (remote : String) : Except String Unit :=
  b.fetchRes remote

/-- git.go `UpstreamRef`: resolve the upstream tracking ref of a branch. -/
def UpstreamRef (b : Backend) (branch : String) : Except String String :=
  b.upstreamRefQ branch

/-- git.go `RevParse`: split the stdout of `git rev-parse --quiet REFS...`. -/
def RevParse (b : Backend) (refs : List String) : Except String (List String) :=
  match b.revParseOut refs with
  | .error e => .error e
  | .ok out => .ok (splitLines out)

/-- git.go `MergeFFOnly`. -/
def MergeFFOnly (b : Backend) (ref : String) : Except String Unit :=
  b.mergeFFRes ref

/-- git.go `UpdateRef`. -/
def UpdateRef (b : Backend) (ref target : String) : Except String Unit :=
  b.updateRefRes ref target

/-- git.go `DeleteBranch` (force delete). -/
def DeleteBranch (b : Backend) (name : String) : Except String Unit :=
  b.deleteBranchRes name

/-- git.go `Checkout`. -/
def Checkout (b : Backend) (branch : String) : Except String Unit :=
  b.checkoutRes branch

/-- git.go `MergeBase`. -/
def MergeBase (b : Backend) (x y : String) : Except String String :=
  b.mergeBaseQ x y

/-- git.go `TreeHash`. -/
def TreeHash (b : Backend) (ref : String) : Except String String :=
  b.treeHashQ ref

/-- git.go `CommitTree`. -/
def CommitTree (b : Backend) (tree parent message : String) : Except String String :=
  b.commitTreeQ tree parent message

/-- git.go `Cherry`. -/
def Cherry (b : Backend) (upstream head : String) : Except String String :=
  b.cherryQ upstream head

/-- internal/git `Range`: two resolved commit ids. -/
structure Range where
  A : String
  B : String
deriving Repr, DecidableEq

/-- internal/git `NewRange`: rev-parse both refs, failing when the call fails
or does not yield exactly two ids. -/
def NewRange (b : Backend) (x y : String) : Except String Range :=
  match RevParse b [x, y] with
  | .error e => .error e
  | .ok shas =>
    match shas with
    | [a, c] => .ok ⟨a, c⟩
    | _ => .error ("failed to resolve refs: " ++ x ++ ", " ++ y)

/-- internal/git `Range.IsIdentical`. -/
def Range.IsIdentical (r : Range) : Bool :=
  r.A == r.B

/-- internal/git `Range.IsAncestor`: `git merge-base --is-ancestor A B`. -/
def Range.IsAncestor (r : Range) (b : Backend) : Bool :=
  b.isAncestorQ r.A r.B

/-- main.go `isSquashMerged`: merge base, tree capture, dangling probe
commit, cherry check; any failing step reports false, a leading "-" in the
cherry output reports true. -/
def isSquashMerged (b : Backend) (branchRef targetRef branchName : String) : Bool :=
  match MergeBase b targetRef branchRef with
  | .error _ => false
  | .ok ancestor =>
    match TreeHash b branchRef with
    | .error _ => false
    | .ok tree =>
      match CommitTree b tree ancestor ("temp squash-merge check for " ++ branchName) with
      | .error _ => false
      | .ok dangling =>
        match Cherry b targetRef dangling with
        | .error _ => false
        | .ok result => hasPrefixStr result "-"

/-- One mutating backend invocation of the run, in invocation order. -/
inductive Effect where
  | fetch (remote : String)
  | mergeFFOnly (ref : String)
  | updateRef (ref target : String)
  | checkout (branch : String)
  | deleteBranch (name : String)
deriving Repr, DecidableEq

/-- The ANSI palette set up at the top of main.go `sync`. -/
structure Palette where
  green : String
  brightGreen : String
  red : String
  brightRed : String
  reset : String
deriving Repr, DecidableEq

/-- main.go `sync` lines 67 to 74: escapes when colored, empty otherwise. -/
def palette (useColor : Bool) : Palette :=
  if useColor then ⟨"\x1b[32m", "\x1b[1;32m", "\x1b[31m", "\x1b[1;31m", "\x1b[0m"⟩
  else ⟨"", "", "", "", ""⟩

/-- The "Updated branch ..." stdout line of main.go. -/
def updatedMsg (p : Palette) (branch : String) (r : Range) : String :=
  p.green ++ "Updated branch " ++ p.brightGreen ++ branch ++ p.reset ++
    " (was " ++ take7 r.A ++ ")."

/-- The "Deleted branch ..." stdout line of main.go. -/
def deletedMsg (p : Palette) (branch : String) (r : Range) : String :=
  p.red ++ "Deleted branch " ++ p.brightRed ++ branch ++ p.reset ++
    " (was " ++ take7 r.A ++ ")."

/-- The unpushed-commits warning line of main.go. -/
def unpushedWarning (branch : String) : String :=
  "warning: '" ++ branch ++ "' seems to contain unpushed commits"

/-- The not-merged warning line of main.go. -/
def notMergedWarning (branch remote defaultBranch : String) : String :=
  "warning: '" ++ branch ++ "' was deleted on " ++ remote ++
    ", but appears not merged into '" ++ defaultBranch ++ "'"

/-- Outcome of one iteration of the branch loop: the tracked current branch
after the iteration, stdout lines, stderr warning lines, mutating backend
calls in order, and the fatal error if the iteration aborted the run. -/
structure StepOut where
  cur : String
  out : List String
  warn : List String
  effs : List Effect
  err : Option String
deriving Repr, DecidableEq

/-- main.go `sync` lines 104 to 120: counterpart resolution for one branch.
Returns the counterpart ref (empty when there is none) and the `gone` flag. -/
def resolveCounterpart (b : Backend) (remote branch : String) : String × Bool :=
  if b.branchRemote branch = remote then
    match UpstreamRef b branch with
    | .ok upstream => (upstream, false)
    | .error _ => ("", true)
  else if ¬ HasRef b ("refs/remotes/" ++ remote ++ "/" ++ branch) then ("", false)
  else ("refs/remotes/" ++ remote ++ "/" ++ branch, false)

/-- main.go `sync` lines 122 to 148: the branch has a remote counterpart. -/
def stepResolved (b : Backend) (p : Palette) (cur branch localRef remoteRef : String) :
    StepOut :=
  match NewRange b localRef remoteRef with
  | .error e => ⟨cur, [], [], [], some e⟩
  | .ok r =>
    if r.IsIdentical then ⟨cur, [], [], [], none⟩
    else if r.IsAncestor b then
      if branch = cur then
        match MergeFFOnly b remoteRef with
        | .error e =>
          ⟨cur, [], [], [.mergeFFOnly remoteRef],
            some ("failed to fast-forward " ++ branch ++ ": " ++ e)⟩
        | .ok _ =>
          ⟨cur, [updatedMsg p branch r], [], [.mergeFFOnly remoteRef], none⟩
      else
        match UpdateRef b localRef remoteRef with
        | .error e =>
          ⟨cur, [], [], [.updateRef localRef remoteRef],
            some ("failed to update " ++ branch ++ ": " ++ e)⟩
        | .ok _ =>
          ⟨cur, [updatedMsg p branch r], [], [.updateRef localRef remoteRef], none⟩
    else ⟨cur, [], [unpushedWarning branch], [], none⟩

/-- main.go `sync` lines 149 to 178: the upstream of the branch is gone. -/
def stepGone (b : Backend) (p : Palette)
    (remote defaultBranch defaultRef cur branch localRef : String) : StepOut :=
  match NewRange b localRef defaultRef with
  | .error e => ⟨cur, [], [], [], some e⟩
  | .ok r =>
    if r.IsAncestor b || isSquashMerged b localRef defaultRef branch then
      if branch = cur then
        match Checkout b defaultBranch with
        | .error e =>
          ⟨cur, [], [], [.checkout defaultBranch],
            some ("failed to checkout " ++ defaultBranch ++ ": " ++ e)⟩
        | .ok _ =>
          match DeleteBranch b branch with
          | .error e =>
            ⟨defaultBranch, [], [], [.checkout defaultBranch, .deleteBranch branch],
              some ("failed to delete " ++ branch ++ ": " ++ e)⟩
          | .ok _ =>
            ⟨defaultBranch, [deletedMsg p branch r], [],
              [.checkout defaultBranch, .deleteBranch branch], none⟩
      else
        match DeleteBranch b branch with
        | .error e =>
          ⟨cur, [], [], [.deleteBranch branch],
            some ("failed to delete " ++ branch ++ ": " ++ e)⟩
        | .ok _ =>
          ⟨cur, [deletedMsg p branch r], [], [.deleteBranch branch], none⟩
    else ⟨cur, [], [notMergedWarning branch remote defaultBranch], [], none⟩

/-- main.go `sync` lines 103 to 180, one loop iteration: resolve the
counterpart, then dispatch on the three classifications.  A branch with no
counterpart and no gone flag is skipped with no verdict and no message. -/
def syncStep (b : Backend) (p : Palette)
    (remote defaultBranch defaultRef cur branch : String) : StepOut :=
  match resolveCounterpart b remote branch with
  | (remoteRef, gone) =>
    if remoteRef ≠ "" then
      stepResolved b p cur branch ("refs/heads/" ++ branch) remoteRef
    else if gone then
      stepGone b p remote defaultBranch defaultRef cur branch ("refs/heads/" ++ branch)
    else ⟨cur, [], [], [], none⟩

/-- The branch loop of main.go `sync`: iterations run in order and the first
iteration that produces an error ends the run with that error. -/
def syncLoop (b : Backend) (p : Palette) (remote defaultBranch defaultRef : String) :
    String → List String → StepOut
  | cur, [] => ⟨cur, [], [], [], none⟩
  | cur, branch :: rest =>
    let s := syncStep b p remote defaultBranch defaultRef cur branch
    match s.err with
    | some e => ⟨s.cur, s.out, s.warn, s.effs, some e⟩
    | none =>
      let t := syncLoop b p remote defaultBranch defaultRef s.cur rest
      ⟨t.cur, s.out ++ t.out, s.warn ++ t.warn, s.effs ++ t.effs, t.err⟩

/-- Result of a whole run: stdout lines, stderr warning lines, the mutating
backend calls in order, and the fatal error when the run aborted. -/
structure SyncResult where
  out : List String
  warn : List String
  effs : List Effect
  err : Option String
deriving Repr, DecidableEq

/-- main.go `sync`: select the remote, resolve the default branch, note the
current branch (empty when detached), fetch, enumerate local branches, and
run the branch loop. -/
def sync (b : Backend) (useColor : Bool) : SyncResult :=
  match MainRemote b with
  | .error e => ⟨[], [], [], some e⟩
  | .ok remote =>
    match Fetch b remote with
    | .error e => ⟨[], [], [.fetch remote], some ("fetch failed: " ++ e)⟩
    | .ok _ =>
      match LocalBranches b with
      | .error e => ⟨[], [], [.fetch remote], some e⟩
      | .ok branches =>
        let t := syncLoop b (palette useColor) remote (DefaultBranch b remote)
          ("refs/remotes/" ++ remote ++ "/" ++ DefaultBranch b remote)
          (match CurrentBranch b with
            | .ok s => s
            | .error _ => "")
          branches
        ⟨t.out, t.warn, .fetch remote :: t.effs, t.err⟩

/-- Modelled from the spec: the backend's ancestor-check query ("a boolean
query of whether one commit's history fully contains another commit") over a
non-cyclic history.  The git binary that answers `merge-base --is-ancestor`
is outside this repository, so the commit graph is taken from the spec's
glossary: commits are identified by their id string, each commit lists its
parents, and a rank function witnesses that the history has no cycles (every
parent has strictly smaller rank, as in any append-only history). -/
structure CommitGraph where
  parents : String → List String
  rank : String → Nat
  parentsLt : ∀ s p, p ∈ parents s → rank p < rank s

/-- Commit `a` is an ancestor of commit `b`: the same commit, or an ancestor
of one of the parents of `b`. -/
def CommitGraph.ancestor (g : CommitGraph) (a b : String) : Bool :=
  (a == b) || (g.parents b).attach.any fun p => CommitGraph.ancestor g a p.1
termination_by g.rank b
decreasing_by exact g.parentsLt b p.1 p.2

/-- A branch in the steady state that a completed run leaves behind: its
counterpart comparison is identical or fails the ancestor test (it only
warns), or its upstream is gone but it is neither merged nor squash-merged
(it only warns), or it has no counterpart at all. -/
def steadyBranch (b : Backend) (remote defaultRef branch : String) : Prop :=
  match resolveCounterpart b remote branch with
  | (remoteRef, gone) =>
    if remoteRef ≠ "" then
      ∃ r, NewRange b ("refs/heads/" ++ branch) remoteRef = .ok r ∧
        (r.IsIdentical = true ∨ r.IsAncestor b = false)
    else if gone then
      ∃ r, NewRange b ("refs/heads/" ++ branch) defaultRef = .ok r ∧
        r.IsAncestor b = false ∧
        isSquashMerged b ("refs/heads/" ++ branch) defaultRef branch = false
    else True

/-- A concrete backend for witnesses: one remote `origin`, one local branch
`main` checked out, no tracking config, every other query failing or empty. -/
def baseBackend : Backend where
  remoteOut := .ok "origin"
  symbolicRefQ := fun _ => .error "exit status 1"
  currentBranchOut := .ok "main"
  branchListOut := .ok "main"
  fetchRes := fun _ => .ok ()
  branchRemote := fun _ => ""
  upstreamRefQ := fun _ => .error "exit status 128"
  hasRefQ := fun _ => false
  revParseOut := fun _ => .error "exit status 128"
  isAncestorQ := fun _ _ => false
  mergeFFRes := fun _ => .ok ()
  updateRefRes := fun _ _ => .ok ()
  deleteBranchRes := fun _ => .ok ()
  checkoutRes := fun _ => .ok ()
  mergeBaseQ := fun _ _ => .error "exit status 1"
  treeHashQ := fun _ => .error "exit status 128"
  commitTreeQ := fun _ _ _ => .error "exit status 128"
  cherryQ := fun _ _ => .error "exit status 128"

/-- Backend whose remote listing invocation itself fails. -/
def bRemoteFail : Backend :=
  { baseBackend with remoteOut := .error "boom" }

/-- Backend with a successful but empty remote listing. -/
def bNoRemotes : Backend :=
  { baseBackend with remoteOut := .ok "" }

/-- Backend with two remotes, neither named upstream, github or origin. -/
def bOtherRemotes : Backend :=
  { baseBackend with remoteOut := .ok "alpha\nbeta" }

/-- Backend for the counterpart-resolution counterexample: local branch
`feat` explicitly tracks the remote `other`, yet a same-named ref exists on
the selected remote `origin`, and the two tips have diverged. -/
def bTracksOther : Backend :=
  { baseBackend with
    branchListOut := .ok "feat"
    branchRemote := fun br => if br = "feat" then "other" else ""
    hasRefQ := fun ref => ref = "refs/remotes/origin/feat"
    revParseOut := fun refs =>
      if refs = ["refs/heads/feat", "refs/remotes/origin/feat"] then .ok "aaa\nbbb"
      else .error "exit status 128" }

/-- Backend with the checked-out branch `main` tracking `origin` and
diverged from its counterpart: the run warns and mutates nothing. -/
def bDiverged : Backend :=
  { baseBackend with
    branchRemote := fun br => if br = "main" then "origin" else ""
    upstreamRefQ := fun br =>
      if br = "main" then .ok "refs/remotes/origin/main" else .error "exit status 128"
    revParseOut := fun refs =>
      if refs = ["refs/heads/main", "refs/remotes/origin/main"] then .ok "aaa\nbbb"
      else .error "exit status 128" }

/-- Backend with branch `main` identical to its tracked counterpart. -/
def bIdentical : Backend :=
  { bDiverged with
    revParseOut := fun refs =>
      if refs = ["refs/heads/main", "refs/remotes/origin/main"] then .ok "aaa\naaa"
      else .error "exit status 128" }

/-- Backend with branch `main` strictly behind its tracked counterpart. -/
def bBehind : Backend :=
  { bDiverged with isAncestorQ := fun x y => x = "aaa" && y = "bbb" }

/-- Backend with a non-checked-out branch `feat` (current branch is `main`)
strictly behind its tracked counterpart, and with a gone-branch range
against the default branch also resolving. -/
def bFeatBehind : Backend :=
  { baseBackend with
    branchListOut := .ok "feat"
    symbolicRefQ := fun ref =>
      if ref = "refs/remotes/origin/HEAD" then .ok "refs/remotes/origin/main"
      else .error "exit status 1"
    branchRemote := fun br => if br = "feat" then "origin" else ""
    upstreamRefQ := fun br =>
      if br = "feat" then .ok "refs/remotes/origin/feat" else .error "exit status 128"
    revParseOut := fun refs =>
      if refs = ["refs/heads/feat", "refs/remotes/origin/feat"] then .ok "aaa\nbbb"
      else if refs = ["refs/heads/feat", "refs/remotes/origin/main"] then .ok "ccc\nddd"
      else .error "exit status 128"
    isAncestorQ := fun x _ => x = "aaa" || x = "ccc" }

/-- Backend for the gone-upstream witnesses: branch `feat` tracks `origin`
but its upstream no longer resolves, and `feat` is an ancestor of the
default branch. -/
def bGoneMerged : Backend :=
  { baseBackend with
    branchListOut := .ok "feat"
    symbolicRefQ := fun ref =>
      if ref = "refs/remotes/origin/HEAD" then .ok "refs/remotes/origin/main"
      else .error "exit status 1"
    branchRemote := fun br => if br = "feat" then "origin" else ""
    revParseOut := fun refs =>
      if refs = ["refs/heads/feat", "refs/remotes/origin/main"] then .ok "ccc\nddd"
      else .error "exit status 128"
    isAncestorQ := fun x y => x = "ccc" && y = "ddd" }

/-- Like `bGoneMerged` but with no ancestry; the squash-merge detector's
steps all succeed and the cherry output carries the "already applied"
marker. -/
def bGoneSquashed : Backend :=
  { bGoneMerged with
    isAncestorQ := fun _ _ => false
    mergeBaseQ := fun _ _ => .ok "mb"
    treeHashQ := fun _ => .ok "tree"
    commitTreeQ := fun _ _ _ => .ok "dangling"
    cherryQ := fun _ _ => .ok "- dangling" }

/-- Like `bGoneSquashed` but the cherry output says the patch is absent. -/
def bGoneUnmerged : Backend :=
  { bGoneSquashed with cherryQ := fun _ _ => .ok "+ dangling" }

/-- Backend whose mutating calls fail, to exercise the abort paths. -/
def bMutationsFail : Backend :=
  { bFeatBehind with
    mergeFFRes := fun _ => .error "fatal: not possible to fast-forward"
    updateRefRes := fun _ _ => .error "fatal: update-ref failed"
    deleteBranchRes := fun _ => .error "fatal: delete failed"
    checkoutRes := fun _ => .error "fatal: checkout failed" }

/-- Backend whose ref resolution fails, so Range construction fails. -/
def bRangeFail : Backend :=
  { bFeatBehind with revParseOut := fun _ => .error "exit status 128" }

/-- Backend in a detached-HEAD state: current-branch resolution fails while
branch `feat` is strictly behind its tracked counterpart. -/
def bDetached : Backend :=
  { bFeatBehind with currentBranchOut := .error "exit status 1" }

/-- A two-commit graph: `bb` has the sole parent `aa`. -/
def g0 : CommitGraph where
  parents := fun s => if s = "bb" then ["aa"] else []
  rank := fun s => if s = "aa" then 0 else 1
  parentsLt := by
    intro s p hp
    by_cases hs : s = "bb"
    · subst hs
      simp at hp
      subst hp
      decide
    · simp [hs] at hp

/-- Backend whose ancestor-check query is answered by the graph `g0`. -/
def bGraph : Backend :=
  { baseBackend with isAncestorQ := fun x y => g0.ancestor x y }

/-
Theorems.
-/

/-- Claim C4: the squash-merge detector returns false whenever any backend
step fails (merge-base, tree capture, dangling-commit creation, or the
cherry check), and when every step succeeds it returns true exactly when the
cherry output starts with the "-" (already applied) marker.  The detector's
return type is `Bool`: it has no error channel, so no backend failure can
propagate to the run. -/
theorem squash_detector_result (b : Backend) (branchRef targetRef branchName : String) :
    isSquashMerged b branchRef targetRef branchName = true ↔
      ∃ ancestor tree dangling result,
        MergeBase b targetRef branchRef = .ok ancestor ∧
        TreeHash b branchRef = .ok tree ∧
        CommitTree b tree ancestor ("temp squash-merge check for " ++ branchName)
          = .ok dangling ∧
        Cherry b targetRef dangling = .ok result ∧
        hasPrefixStr result "-" = true := by
  unfold isSquashMerged
  cases hm : MergeBase b targetRef branchRef with
  | error e => simp [hm]
  | ok ancestor =>
    cases ht : TreeHash b branchRef with
    | error e => simp [ht]
    | ok tree =>
      cases hc : CommitTree b tree ancestor ("temp squash-merge check for " ++ branchName) with
      | error e => simp [hc]
      | ok dangling =>
        cases hy : Cherry b targetRef dangling with
        | error e => simp [hc, hy]
        | ok result => simp [hc, hy]

/-- Claim C10: remote selection fails exactly when the listing invocation
fails or yields zero remotes; with at least one remote but none named
upstream, github or origin, it returns the first remote in listing order. -/
theorem mainRemote_fallback (b : Backend) :
    (∀ e, b.remoteOut = .error e →
      MainRemote b = .error ("failed to list remotes: " ++ e)) ∧
    (∀ out, b.remoteOut = .ok out → splitLines out = [] →
      MainRemote b = .error "no git remotes found") ∧
    (∀ out first rest, b.remoteOut = .ok out → splitLines out = first :: rest →
      "upstream" ∉ splitLines out → "github" ∉ splitLines out →
      "origin" ∉ splitLines out →
      MainRemote b = .ok first) ∧
    (∀ out first rest, b.remoteOut = .ok out → splitLines out = first :: rest →
      ∃ r, MainRemote b = .ok r) := by
  refine ⟨?_, ?_, ?_, ?_⟩
  · intro e he
    unfold MainRemote
    rw [he]
  · intro out hout hsplit
    unfold MainRemote
    rw [hout]
    simp [hsplit]
  · intro out first rest hout hsplit h1 h2 h3
    unfold MainRemote
    rw [hout]
    have hfind : (["upstream", "github", "origin"].find?
        fun c => (splitLines out).contains c) = none := by
      rw [List.find?_eq_none]
      intro x hx hcontains
      obtain ⟨y, hy, hxy⟩ := List.contains_iff_exists_mem_beq.mp hcontains
      rw [beq_iff_eq] at hxy
      subst hxy
      simp only [List.mem_cons, List.not_mem_nil, or_false] at hx
      rcases hx with rfl | rfl | rfl
      · exact h1 hy
      · exact h2 hy
      · exact h3 hy
    rw [hsplit] at hfind
    simp only [hsplit, hfind]
  · intro out first rest hout hsplit
    unfold MainRemote
    rw [hout]
    simp only [hsplit]
    cases hfind : (["upstream", "github", "origin"].find?
        fun c => ((first : String) :: rest).contains c) with
    | none => exact ⟨first, rfl⟩
    | some c => exact ⟨c, rfl⟩

/-- Witness for `mainRemote_fallback`: the three outcomes at concrete
backends. -/
theorem mainRemote_fallback_witness :
    MainRemote bRemoteFail = .error "failed to list remotes: boom" ∧
    MainRemote bNoRemotes = .error "no git remotes found" ∧
    MainRemote bOtherRemotes = .ok "alpha" :=
  ⟨(mainRemote_fallback bRemoteFail).1 "boom" rfl,
    (mainRemote_fallback bNoRemotes).2.1 "" rfl (by decide),
    (mainRemote_fallback bOtherRemotes).2.2.1 "alpha\nbeta" "alpha" ["beta"] rfl
      (by decide) (by decide) (by decide) (by decide)⟩

/-- Every commit is an ancestor of itself. -/
theorem CommitGraph.ancestor_self (g : CommitGraph) (a : String) :
    g.ancestor a a = true := by
  unfold CommitGraph.ancestor
  simp

/-- Ancestry never increases the rank. -/
theorem CommitGraph.ancestor_rank_le (g : CommitGraph) (a b : String)
    (h : g.ancestor a b = true) : g.rank a ≤ g.rank b := by
  unfold CommitGraph.ancestor at h
  rcases Bool.or_eq_true_iff.mp h with h1 | h2
  · have hab : a = b := by simpa using h1
    exact hab ▸ le_rfl
  · obtain ⟨p, _, hanc⟩ := List.any_eq_true.mp h2
    have h3 := CommitGraph.ancestor_rank_le g a p.1 (by simpa using hanc)
    exact h3.trans (Nat.le_of_lt (g.parentsLt b p.1 p.2))
termination_by g.rank b
decreasing_by exact g.parentsLt b p.1 p.2

/-- Strict ancestry strictly decreases the rank. -/
theorem CommitGraph.ancestor_rank_lt (g : CommitGraph) (a b : String)
    (hne : a ≠ b) (h : g.ancestor a b = true) : g.rank a < g.rank b := by
  unfold CommitGraph.ancestor at h
  rcases Bool.or_eq_true_iff.mp h with h1 | h2
  · exact absurd (by simpa using h1) hne
  · obtain ⟨p, _, hanc⟩ := List.any_eq_true.mp h2
    exact Nat.lt_of_le_of_lt
      (CommitGraph.ancestor_rank_le g a p.1 (by simpa using hanc))
      (g.parentsLt b p.1 p.2)

/-- Ancestry between distinct commits cannot run both ways in a non-cyclic
history. -/
theorem CommitGraph.ancestor_asymm (g : CommitGraph) (a b : String)
    (hne : a ≠ b) (h : g.ancestor a b = true) : g.ancestor b a = false := by
  cases hba : g.ancestor b a with
  | false => rfl
  | true =>
    have h1 := CommitGraph.ancestor_rank_lt g a b hne h
    have h2 := CommitGraph.ancestor_rank_le g b a hba
    omega

/-- Claim C7: for a backend whose ancestor-check query is answered by a
non-cyclic commit graph, a Range with equal commit ids is identical and a
trivial ancestor case; a Range whose first id is a strict ancestor of the
second is not identical, passes the ancestor test, and the reversed Range
fails it. -/
theorem range_identity_and_ancestry (g : CommitGraph) (bk : Backend)
    (hbk : ∀ x y, bk.isAncestorQ x y = g.ancestor x y) :
    (∀ r : Range, r.A = r.B →
      r.IsIdentical = true ∧ r.IsAncestor bk = true) ∧
    (∀ r : Range, r.A ≠ r.B → g.ancestor r.A r.B = true →
      r.IsIdentical = false ∧ r.IsAncestor bk = true ∧
      Range.IsAncestor ⟨r.B, r.A⟩ bk = false) := by
  constructor
  · intro r h
    unfold Range.IsIdentical Range.IsAncestor
    rw [hbk, h]
    exact ⟨by simp, CommitGraph.ancestor_self g r.B⟩
  · intro r hne hanc
    unfold Range.IsIdentical Range.IsAncestor
    rw [hbk, hbk]
    exact ⟨by simpa using hne, hanc, CommitGraph.ancestor_asymm g r.A r.B hne hanc⟩

/-- In the graph `g0`, `aa` is a strict ancestor of `bb`. -/
theorem g0_ancestor_aa_bb : g0.ancestor "aa" "bb" = true := by
  unfold CommitGraph.ancestor
  refine Bool.or_eq_true_iff.mpr (Or.inr (List.any_eq_true.mpr ?_))
  refine ⟨⟨"aa", ?_⟩, List.mem_attach _ _, ?_⟩
  · simp [g0]
  · simpa using CommitGraph.ancestor_self g0 "aa"

/-- Witness for `range_identity_and_ancestry` on the two-commit graph
`g0`. -/
theorem range_identity_and_ancestry_witness :
    (Range.mk "aa" "aa").IsIdentical = true ∧
    (Range.mk "aa" "aa").IsAncestor bGraph = true ∧
    (Range.mk "aa" "bb").IsIdentical = false ∧
    (Range.mk "aa" "bb").IsAncestor bGraph = true ∧
    (Range.mk "bb" "aa").IsAncestor bGraph = false := by
  have h := range_identity_and_ancestry g0 bGraph fun x y => rfl
  have ha := h.1 ⟨"aa", "aa"⟩ rfl
  have hb := h.2 ⟨"aa", "bb"⟩ (by decide) g0_ancestor_aa_bb
  exact ⟨ha.1, ha.2, hb.1, hb.2.1, hb.2.2⟩

/-- Routing: a counterpart resolution with a nonempty ref enters the
resolved arm of the loop body. -/
theorem syncStep_resolved (b : Backend) (p : Palette)
    (remote defaultBranch defaultRef cur branch remoteRef : String)
    (hres : resolveCounterpart b remote branch = (remoteRef, false))
    (hne : remoteRef ≠ "") :
    syncStep b p remote defaultBranch defaultRef cur branch =
      stepResolved b p cur branch ("refs/heads/" ++ branch) remoteRef := by
  unfold syncStep
  rw [hres]
  simp [hne]

/-- Routing: explicit tracking to the selected remote with an upstream that
fails to resolve enters the gone arm of the loop body. -/
theorem syncStep_gone (b : Backend) (p : Palette)
    (remote defaultBranch defaultRef cur branch eu : String)
    (htrack : b.branchRemote branch = remote)
    (hup : UpstreamRef b branch = .error eu) :
    syncStep b p remote defaultBranch defaultRef cur branch =
      stepGone b p remote defaultBranch defaultRef cur branch
        ("refs/heads/" ++ branch) := by
  unfold syncStep resolveCounterpart
  rw [htrack, hup]
  simp

/-- The gone arm deletes the branch when the range test (or the detector)
approves, switching the checkout first when the branch is checked out. -/
theorem stepGone_delete (b : Backend) (p : Palette)
    (remote defaultBranch defaultRef cur branch localRef : String) (r : Range)
    (hr : NewRange b localRef defaultRef = .ok r)
    (hsd : (r.IsAncestor b || isSquashMerged b localRef defaultRef branch) = true)
    (hco : Checkout b defaultBranch = .ok ())
    (hdel : DeleteBranch b branch = .ok ()) :
    stepGone b p remote defaultBranch defaultRef cur branch localRef =
      if branch = cur then
        ⟨defaultBranch, [deletedMsg p branch r], [],
          [.checkout defaultBranch, .deleteBranch branch], none⟩
      else
        ⟨cur, [deletedMsg p branch r], [], [.deleteBranch branch], none⟩ := by
  unfold stepGone
  rw [hr]
  by_cases hbc : branch = cur
  · subst hbc
    rcases Bool.or_eq_true_iff.mp hsd with h | h <;> simp [h, hco, hdel]
  · rcases Bool.or_eq_true_iff.mp hsd with h | h <;> simp [h, hbc, hco, hdel]

/-- Claim C2: for a branch whose counterpart resolved, the verdict is taken
in this order from Range(local, counterpart): identical commit ids give
UpToDate (no message, no mutation); else local being an ancestor of the
counterpart gives FastForward; otherwise the branch gets the unpushed
warning with no mutation. -/
theorem resolved_branch_verdicts (b : Backend) (p : Palette)
    (remote defaultBranch defaultRef cur branch remoteRef : String) (r : Range)
    (hres : resolveCounterpart b remote branch = (remoteRef, false))
    (hne : remoteRef ≠ "")
    (hr : NewRange b ("refs/heads/" ++ branch) remoteRef = .ok r)
    (hff : MergeFFOnly b remoteRef = .ok ())
    (hup : UpdateRef b ("refs/heads/" ++ branch) remoteRef = .ok ()) :
    (r.IsIdentical = true →
      syncStep b p remote defaultBranch defaultRef cur branch =
        ⟨cur, [], [], [], none⟩) ∧
    (r.IsIdentical = false → r.IsAncestor b = true →
      syncStep b p remote defaultBranch defaultRef cur branch =
        if branch = cur then
          ⟨cur, [updatedMsg p branch r], [], [.mergeFFOnly remoteRef], none⟩
        else
          ⟨cur, [updatedMsg p branch r], [],
            [.updateRef ("refs/heads/" ++ branch) remoteRef], none⟩) ∧
    (r.IsIdentical = false → r.IsAncestor b = false →
      syncStep b p remote defaultBranch defaultRef cur branch =
        ⟨cur, [], [unpushedWarning branch], [], none⟩) := by
  rw [syncStep_resolved b p remote defaultBranch defaultRef cur branch remoteRef hres hne]
  unfold stepResolved
  rw [hr]
  refine ⟨fun hid => by simp [hid], fun hid hanc => ?_, fun hid hanc => by simp [hid, hanc]⟩
  by_cases hbc : branch = cur
  · simp [hid, hanc, hbc, hff]
  · simp [hid, hanc, hbc, hup]

/-- Witness for `resolved_branch_verdicts`: the three verdicts at concrete
backends (identical, checked-out fast-forward, non-checked-out fast-forward,
diverged). -/
theorem resolved_branch_verdicts_witness :
    syncStep bIdentical (palette false) "origin" "main" "refs/remotes/origin/main"
        "main" "main" = ⟨"main", [], [], [], none⟩ ∧
    syncStep bBehind (palette false) "origin" "main" "refs/remotes/origin/main"
        "main" "main" =
      ⟨"main", [updatedMsg (palette false) "main" ⟨"aaa", "bbb"⟩], [],
        [.mergeFFOnly "refs/remotes/origin/main"], none⟩ ∧
    syncStep bFeatBehind (palette false) "origin" "main" "refs/remotes/origin/main"
        "main" "feat" =
      ⟨"main", [updatedMsg (palette false) "feat" ⟨"aaa", "bbb"⟩], [],
        [.updateRef "refs/heads/feat" "refs/remotes/origin/feat"], none⟩ ∧
    syncStep bDiverged (palette false) "origin" "main" "refs/remotes/origin/main"
        "main" "main" = ⟨"main", [], [unpushedWarning "main"], [], none⟩ := by
  refine ⟨?_, ?_, ?_, ?_⟩
  · exact (resolved_branch_verdicts bIdentical (palette false) "origin" "main"
      "refs/remotes/origin/main" "main" "main" "refs/remotes/origin/main"
      ⟨"aaa", "aaa"⟩ (by decide) (by decide) rfl rfl rfl).1 (by decide)
  · exact ((resolved_branch_verdicts bBehind (palette false) "origin" "main"
      "refs/remotes/origin/main" "main" "main" "refs/remotes/origin/main"
      ⟨"aaa", "bbb"⟩ (by decide) (by decide) rfl rfl rfl).2.1 (by decide)
        (by decide)).trans (by decide)
  · exact ((resolved_branch_verdicts bFeatBehind (palette false) "origin" "main"
      "refs/remotes/origin/main" "main" "feat" "refs/remotes/origin/feat"
      ⟨"aaa", "bbb"⟩ (by decide) (by decide) rfl rfl rfl).2.1 (by decide)
        (by decide)).trans (by decide)
  · exact (resolved_branch_verdicts bDiverged (palette false) "origin" "main"
      "refs/remotes/origin/main" "main" "main" "refs/remotes/origin/main"
      ⟨"aaa", "bbb"⟩ (by decide) (by decide) rfl rfl rfl).2.2 (by decide)
        (by decide)

/-- Claim C1: for a branch classified CounterpartGone (explicit tracking to
the selected remote whose upstream fails to resolve), the driver builds
Range(local, defaultBranch); ancestry alone gives the Deleted verdict — and
then the result does not depend on the detector's backend queries at all
(replacing the four detector fields changes nothing) — otherwise the
squash-merge detector decides: true gives Deleted, false gives the
not-merged warning. -/
theorem gone_branch_verdicts (b : Backend) (p : Palette)
    (remote defaultBranch defaultRef cur branch eu : String) (r : Range)
    (f1 : String → String → Except String String)
    (f2 : String → Except String String)
    (f3 : String → String → String → Except String String)
    (f4 : String → String → Except String String)
    (htrack : b.branchRemote branch = remote)
    (hup : UpstreamRef b branch = .error eu)
    (hr : NewRange b ("refs/heads/" ++ branch) defaultRef = .ok r)
    (hco : Checkout b defaultBranch = .ok ())
    (hdel : DeleteBranch b branch = .ok ()) :
    (r.IsAncestor b = true →
      syncStep b p remote defaultBranch defaultRef cur branch =
        (if branch = cur then
          ⟨defaultBranch, [deletedMsg p branch r], [],
            [.checkout defaultBranch, .deleteBranch branch], none⟩
        else
          ⟨cur, [deletedMsg p branch r], [], [.deleteBranch branch], none⟩) ∧
      syncStep
          { b with mergeBaseQ := f1, treeHashQ := f2, commitTreeQ := f3, cherryQ := f4 }
          p remote defaultBranch defaultRef cur branch =
        syncStep b p remote defaultBranch defaultRef cur branch) ∧
    (r.IsAncestor b = false →
      isSquashMerged b ("refs/heads/" ++ branch) defaultRef branch = true →
      syncStep b p remote defaultBranch defaultRef cur branch =
        if branch = cur then
          ⟨defaultBranch, [deletedMsg p branch r], [],
            [.checkout defaultBranch, .deleteBranch branch], none⟩
        else
          ⟨cur, [deletedMsg p branch r], [], [.deleteBranch branch], none⟩) ∧
    (r.IsAncestor b = false →
      isSquashMerged b ("refs/heads/" ++ branch) defaultRef branch = false →
      syncStep b p remote defaultBranch defaultRef cur branch =
        ⟨cur, [], [notMergedWarning branch remote defaultBranch], [], none⟩) := by
  have hroute := syncStep_gone b p remote defaultBranch defaultRef cur branch eu htrack hup
  refine ⟨fun hanc => ⟨?_, ?_⟩, fun hanc hsq => ?_, fun hanc hsq => ?_⟩
  · rw [hroute]
    exact stepGone_delete b p remote defaultBranch defaultRef cur branch
      ("refs/heads/" ++ branch) r hr (by simp [hanc]) hco hdel
  · have hroute2 := syncStep_gone
      { b with mergeBaseQ := f1, treeHashQ := f2, commitTreeQ := f3, cherryQ := f4 }
      p remote defaultBranch defaultRef cur branch eu htrack hup
    rw [hroute, hroute2]
    have hout := stepGone_delete b p remote defaultBranch defaultRef cur branch
      ("refs/heads/" ++ branch) r hr (by simp [hanc]) hco hdel
    have hout2 := stepGone_delete
      { b with mergeBaseQ := f1, treeHashQ := f2, commitTreeQ := f3, cherryQ := f4 }
      p remote defaultBranch defaultRef cur branch
      ("refs/heads/" ++ branch) r hr
      (by simp only [Range.IsAncestor] at hanc
          simp only [Bool.or_eq_true, Range.IsAncestor]
          exact Or.inl hanc)
      hco hdel
    rw [hout, hout2]
  · rw [hroute]
    exact stepGone_delete b p remote defaultBranch defaultRef cur branch
      ("refs/heads/" ++ branch) r hr (by simp [hanc, hsq]) hco hdel
  · rw [hroute]
    unfold stepGone
    rw [hr]
    simp [hanc, hsq]

/-- Witness for `gone_branch_verdicts`: regular merge, squash merge, and the
unmerged warning at concrete backends, plus detector-independence under
ancestry. -/
theorem gone_branch_verdicts_witness :
    syncStep bGoneMerged (palette false) "origin" "main" "refs/remotes/origin/main"
        "main" "feat" =
      ⟨"main", [deletedMsg (palette false) "feat" ⟨"ccc", "ddd"⟩], [],
        [.deleteBranch "feat"], none⟩ ∧
    syncStep
        { bGoneMerged with
          mergeBaseQ := fun _ _ => .ok "zz", treeHashQ := fun _ => .ok "zz",
          commitTreeQ := fun _ _ _ => .ok "zz", cherryQ := fun _ _ => .ok "+ zz" }
        (palette false) "origin" "main" "refs/remotes/origin/main" "main" "feat" =
      syncStep bGoneMerged (palette false) "origin" "main" "refs/remotes/origin/main"
        "main" "feat" ∧
    syncStep bGoneSquashed (palette false) "origin" "main" "refs/remotes/origin/main"
        "main" "feat" =
      ⟨"main", [deletedMsg (palette false) "feat" ⟨"ccc", "ddd"⟩], [],
        [.deleteBranch "feat"], none⟩ ∧
    syncStep bGoneUnmerged (palette false) "origin" "main" "refs/remotes/origin/main"
        "main" "feat" =
      ⟨"main", [], [notMergedWarning "feat" "origin" "main"], [], none⟩ := by
  have hm := gone_branch_verdicts bGoneMerged (palette false) "origin" "main"
    "refs/remotes/origin/main" "main" "feat" "exit status 128" ⟨"ccc", "ddd"⟩
    (fun _ _ => .ok "zz") (fun _ => .ok "zz") (fun _ _ _ => .ok "zz")
    (fun _ _ => .ok "+ zz") rfl rfl rfl rfl rfl
  have hs := gone_branch_verdicts bGoneSquashed (palette false) "origin" "main"
    "refs/remotes/origin/main" "main" "feat" "exit status 128" ⟨"ccc", "ddd"⟩
    bGoneSquashed.mergeBaseQ bGoneSquashed.treeHashQ bGoneSquashed.commitTreeQ
    bGoneSquashed.cherryQ rfl rfl rfl rfl rfl
  have hu := gone_branch_verdicts bGoneUnmerged (palette false) "origin" "main"
    "refs/remotes/origin/main" "main" "feat" "exit status 128" ⟨"ccc", "ddd"⟩
    bGoneUnmerged.mergeBaseQ bGoneUnmerged.treeHashQ bGoneUnmerged.commitTreeQ
    bGoneUnmerged.cherryQ rfl rfl rfl rfl rfl
  refine ⟨((hm.1 (by decide)).1).trans (by decide), (hm.1 (by decide)).2,
    ((hs.2.1 (by decide) (by decide)).trans (by decide)),
    hu.2.2 (by decide) (by decide)⟩

/-- Claim C3 (amended): counterpart resolution in rule order: a branch with
explicit tracking configuration pointing at the selected remote resolves its
upstream (success gives CounterpartResolved with that reference, failure
gives CounterpartGone); a branch whose tracking does NOT point at the
selected remote — whether it has no tracking at all or tracks another
remote — falls back to name matching on the selected remote and resolves
implicitly when the same-named ref exists; a branch with neither is
CounterpartAbsent and skipped entirely: no verdict, no message, no
mutation, no error. -/
theorem counterpart_resolution_order (b : Backend) (p : Palette)
    (remote defaultBranch defaultRef cur branch : String) :
    (∀ u, b.branchRemote branch = remote → UpstreamRef b branch = .ok u →
      resolveCounterpart b remote branch = (u, false)) ∧
    (∀ e, b.branchRemote branch = remote → UpstreamRef b branch = .error e →
      resolveCounterpart b remote branch = ("", true)) ∧
    (b.branchRemote branch ≠ remote →
      HasRef b ("refs/remotes/" ++ remote ++ "/" ++ branch) = true →
      resolveCounterpart b remote branch =
        ("refs/remotes/" ++ remote ++ "/" ++ branch, false)) ∧
    (b.branchRemote branch ≠ remote →
      HasRef b ("refs/remotes/" ++ remote ++ "/" ++ branch) = false →
      resolveCounterpart b remote branch = ("", false) ∧
      syncStep b p remote defaultBranch defaultRef cur branch =
        ⟨cur, [], [], [], none⟩) := by
  refine ⟨fun u ht hu => ?_, fun e ht hu => ?_, fun ht hh => ?_, fun ht hh => ⟨?_, ?_⟩⟩
  · simp [resolveCounterpart, ht, hu]
  · simp [resolveCounterpart, ht, hu]
  · simp [resolveCounterpart, ht, hh]
  · simp [resolveCounterpart, ht, hh]
  · unfold syncStep
    have hres : resolveCounterpart b remote branch = ("", false) := by
      simp [resolveCounterpart, ht, hh]
    rw [hres]
    simp

/-- Witness for `counterpart_resolution_order`: all four resolution cases at
concrete backends. -/
theorem counterpart_resolution_order_witness :
    resolveCounterpart bDiverged "origin" "main" =
      ("refs/remotes/origin/main", false) ∧
    resolveCounterpart bGoneMerged "origin" "feat" = ("", true) ∧
    resolveCounterpart bTracksOther "origin" "feat" =
      ("refs/remotes/origin/feat", false) ∧
    (resolveCounterpart baseBackend "origin" "main" = ("", false) ∧
      syncStep baseBackend (palette false) "origin" "main"
        "refs/remotes/origin/main" "main" "main" = ⟨"main", [], [], [], none⟩) :=
  ⟨(counterpart_resolution_order bDiverged (palette false) "origin" "main"
      "refs/remotes/origin/main" "main" "main").1 "refs/remotes/origin/main" rfl rfl,
   (counterpart_resolution_order bGoneMerged (palette false) "origin" "main"
      "refs/remotes/origin/main" "main" "feat").2.1 "exit status 128" rfl rfl,
   (counterpart_resolution_order bTracksOther (palette false) "origin" "main"
      "refs/remotes/origin/main" "main" "feat").2.2.1 (by decide) (by decide),
   (counterpart_resolution_order baseBackend (palette false) "origin" "main"
      "refs/remotes/origin/main" "main" "main").2.2.2 (by decide) (by decide)⟩

/-- Claim C3 counterexample: local branch `feat` HAS explicit tracking
configuration — it tracks the remote `other`, not the selected `origin` —
and a same-named ref exists on `origin`.  Under the claim such a branch
falls under "any other branch": CounterpartAbsent, skipped entirely, no
message.  The run instead resolves it implicitly by name and emits an
unpushed-commits warning for it. -/
theorem counterpart_resolution_counterexample :
    bTracksOther.branchRemote "feat" = "other" ∧
    MainRemote bTracksOther = .ok "origin" ∧
    resolveCounterpart bTracksOther "origin" "feat" =
      ("refs/remotes/origin/feat", false) ∧
    (sync bTracksOther false).warn = [unpushedWarning "feat"] := by
  refine ⟨rfl, rfl, by decide, by decide⟩

/-- Claim C5: mutation dispatch respects the checkout.  Fast-forwarding a
branch that is not checked out performs exactly the branch-pointer move (no
working-state update, no checkout switch); fast-forwarding the checked-out
branch performs exactly the fast-forward-only working-state update, and its
failure aborts the run rather than merging; deleting the checked-out branch
always switches the checkout to the resolved default branch before the
force delete, while deleting any other branch performs exactly the delete. -/
theorem mutation_dispatch (b : Backend) (p : Palette)
    (remote defaultBranch defaultRef cur branch localRef remoteRef : String)
    (r rd : Range)
    (hr : NewRange b localRef remoteRef = .ok r)
    (hrd : NewRange b localRef defaultRef = .ok rd) :
    (r.IsIdentical = false → r.IsAncestor b = true → branch ≠ cur →
      (stepResolved b p cur branch localRef remoteRef).effs =
        [.updateRef localRef remoteRef]) ∧
    (r.IsIdentical = false → r.IsAncestor b = true → branch = cur →
      (stepResolved b p cur branch localRef remoteRef).effs =
        [.mergeFFOnly remoteRef] ∧
      ∀ e, MergeFFOnly b remoteRef = .error e →
        (stepResolved b p cur branch localRef remoteRef).err =
          some ("failed to fast-forward " ++ branch ++ ": " ++ e)) ∧
    ((rd.IsAncestor b || isSquashMerged b localRef defaultRef branch) = true →
      branch = cur → Checkout b defaultBranch = .ok () →
      (stepGone b p remote defaultBranch defaultRef cur branch localRef).effs =
        [.checkout defaultBranch, .deleteBranch branch]) ∧
    ((rd.IsAncestor b || isSquashMerged b localRef defaultRef branch) = true →
      branch ≠ cur →
      (stepGone b p remote defaultBranch defaultRef cur branch localRef).effs =
        [.deleteBranch branch]) := by
  refine ⟨fun hid hanc hbc => ?_, fun hid hanc hbc => ⟨?_, fun e he => ?_⟩,
    fun hsd hbc hco => ?_, fun hsd hbc => ?_⟩
  · unfold stepResolved
    rw [hr]
    cases hu : UpdateRef b localRef remoteRef <;> simp [hid, hanc, hbc, hu]
  · unfold stepResolved
    rw [hr]
    cases hf : MergeFFOnly b remoteRef <;> simp [hid, hanc, hbc, hf]
  · unfold stepResolved
    rw [hr]
    simp [hid, hanc, hbc, he]
  · unfold stepGone
    rw [hrd]
    subst hbc
    rcases Bool.or_eq_true_iff.mp hsd with h | h <;>
      cases hd : DeleteBranch b branch <;> simp [h, hco, hd]
  · unfold stepGone
    rw [hrd]
    rcases Bool.or_eq_true_iff.mp hsd with h | h <;>
      cases hd : DeleteBranch b branch <;> simp [h, hbc, hd]

/-- Witness for `mutation_dispatch`: the four dispatch shapes at concrete
backends, plus the abort on a failing checked-out fast-forward. -/
theorem mutation_dispatch_witness :
    (stepResolved bFeatBehind (palette false) "main" "feat" "refs/heads/feat"
        "refs/remotes/origin/feat").effs =
      [.updateRef "refs/heads/feat" "refs/remotes/origin/feat"] ∧
    (stepResolved bMutationsFail (palette false) "feat" "feat" "refs/heads/feat"
        "refs/remotes/origin/feat").effs = [.mergeFFOnly "refs/remotes/origin/feat"] ∧
    (stepResolved bMutationsFail (palette false) "feat" "feat" "refs/heads/feat"
        "refs/remotes/origin/feat").err =
      some "failed to fast-forward feat: fatal: not possible to fast-forward" ∧
    (stepGone bFeatBehind (palette false) "origin" "main" "refs/remotes/origin/main"
        "feat" "feat" "refs/heads/feat").effs =
      [.checkout "main", .deleteBranch "feat"] ∧
    (stepGone bFeatBehind (palette false) "origin" "main" "refs/remotes/origin/main"
        "main" "feat" "refs/heads/feat").effs = [.deleteBranch "feat"] := by
  have h1 := mutation_dispatch bFeatBehind (palette false) "origin" "main"
    "refs/remotes/origin/main" "main" "feat" "refs/heads/feat"
    "refs/remotes/origin/feat" ⟨"aaa", "bbb"⟩ ⟨"ccc", "ddd"⟩ rfl rfl
  have h2 := mutation_dispatch bMutationsFail (palette false) "origin" "main"
    "refs/remotes/origin/main" "feat" "feat" "refs/heads/feat"
    "refs/remotes/origin/feat" ⟨"aaa", "bbb"⟩ ⟨"ccc", "ddd"⟩ rfl rfl
  have h3 := mutation_dispatch bFeatBehind (palette false) "origin" "main"
    "refs/remotes/origin/main" "feat" "feat" "refs/heads/feat"
    "refs/remotes/origin/feat" ⟨"aaa", "bbb"⟩ ⟨"ccc", "ddd"⟩ rfl rfl
  exact ⟨h1.1 (by decide) (by decide) (by decide),
    (h2.2.1 (by decide) (by decide) rfl).1,
    (h2.2.1 (by decide) (by decide) rfl).2 "fatal: not possible to fast-forward" rfl,
    h3.2.2.1 (by decide) rfl rfl,
    h1.2.2.2 (by decide) (by decide)⟩

/-- Claim C6: the loop ends at the first iteration whose step carries an
error, with the remaining branches never evaluated; Range construction
failure is exactly that fatal error in both arms; and every mutation
failure (fast-forward, pointer update, checkout switch, delete) aborts with
a wrapped error naming the branch handed to the failing operation. -/
theorem failures_abort_run (b : Backend) (p : Palette)
    (remote defaultBranch defaultRef cur branch : String) (rest : List String) :
    (∀ e, (syncStep b p remote defaultBranch defaultRef cur branch).err = some e →
      syncLoop b p remote defaultBranch defaultRef cur (branch :: rest) =
        syncStep b p remote defaultBranch defaultRef cur branch) ∧
    (∀ e localRef remoteRef, NewRange b localRef remoteRef = .error e →
      stepResolved b p cur branch localRef remoteRef = ⟨cur, [], [], [], some e⟩) ∧
    (∀ e localRef, NewRange b localRef defaultRef = .error e →
      stepGone b p remote defaultBranch defaultRef cur branch localRef =
        ⟨cur, [], [], [], some e⟩) ∧
    (∀ e localRef remoteRef r, NewRange b localRef remoteRef = .ok r →
      r.IsIdentical = false → r.IsAncestor b = true → branch = cur →
      MergeFFOnly b remoteRef = .error e →
      (stepResolved b p cur branch localRef remoteRef).err =
        some ("failed to fast-forward " ++ branch ++ ": " ++ e)) ∧
    (∀ e localRef remoteRef r, NewRange b localRef remoteRef = .ok r →
      r.IsIdentical = false → r.IsAncestor b = true → branch ≠ cur →
      UpdateRef b localRef remoteRef = .error e →
      (stepResolved b p cur branch localRef remoteRef).err =
        some ("failed to update " ++ branch ++ ": " ++ e)) ∧
    (∀ e localRef r, NewRange b localRef defaultRef = .ok r →
      (r.IsAncestor b || isSquashMerged b localRef defaultRef branch) = true →
      branch = cur → Checkout b defaultBranch = .error e →
      (stepGone b p remote defaultBranch defaultRef cur branch localRef).err =
        some ("failed to checkout " ++ defaultBranch ++ ": " ++ e)) ∧
    (∀ e localRef r, NewRange b localRef defaultRef = .ok r →
      (r.IsAncestor b || isSquashMerged b localRef defaultRef branch) = true →
      branch ≠ cur → DeleteBranch b branch = .error e →
      (stepGone b p remote defaultBranch defaultRef cur branch localRef).err =
        some ("failed to delete " ++ branch ++ ": " ++ e)) := by
  refine ⟨fun e he => ?_, fun e localRef remoteRef hn => ?_, fun e localRef hn => ?_,
    fun e localRef remoteRef r hn hid hanc hbc hf => ?_,
    fun e localRef remoteRef r hn hid hanc hbc hu => ?_,
    fun e localRef r hn hsd hbc hc => ?_,
    fun e localRef r hn hsd hbc hd => ?_⟩
  · rcases hstep : syncStep b p remote defaultBranch defaultRef cur branch with
      ⟨c0, o0, w0, f0, e0⟩
    rw [hstep] at he
    change e0 = some e at he
    subst he
    simp [syncLoop, hstep]
  · unfold stepResolved
    rw [hn]
  · unfold stepGone
    rw [hn]
  · unfold stepResolved
    rw [hn]
    simp [hid, hanc, hbc, hf]
  · unfold stepResolved
    rw [hn]
    simp [hid, hanc, hbc, hu]
  · unfold stepGone
    rw [hn]
    subst hbc
    rcases Bool.or_eq_true_iff.mp hsd with h | h <;> simp [h, hc]
  · unfold stepGone
    rw [hn]
    rcases Bool.or_eq_true_iff.mp hsd with h | h <;>
      cases hdd : DeleteBranch b branch <;> simp [h, hbc, hd] at hdd ⊢ <;> simp [hdd]

/-- Witness for `failures_abort_run`: the loop halt and each wrapped
mutation error at concrete backends. -/
theorem failures_abort_run_witness :
    syncLoop bRangeFail (palette false) "origin" "main" "refs/remotes/origin/main"
        "main" ["feat", "other"] =
      syncStep bRangeFail (palette false) "origin" "main" "refs/remotes/origin/main"
        "main" "feat" ∧
    stepResolved bRangeFail (palette false) "main" "feat" "refs/heads/feat"
        "refs/remotes/origin/feat" =
      ⟨"main", [], [], [], some "exit status 128"⟩ ∧
    stepGone bRangeFail (palette false) "origin" "main" "refs/remotes/origin/main"
        "main" "feat" "refs/heads/feat" =
      ⟨"main", [], [], [], some "exit status 128"⟩ ∧
    (stepResolved bMutationsFail (palette false) "feat" "feat" "refs/heads/feat"
        "refs/remotes/origin/feat").err =
      some "failed to fast-forward feat: fatal: not possible to fast-forward" ∧
    (stepResolved bMutationsFail (palette false) "main" "feat" "refs/heads/feat"
        "refs/remotes/origin/feat").err =
      some "failed to update feat: fatal: update-ref failed" ∧
    (stepGone bMutationsFail (palette false) "origin" "main"
        "refs/remotes/origin/main" "feat" "feat" "refs/heads/feat").err =
      some "failed to checkout main: fatal: checkout failed" ∧
    (stepGone bMutationsFail (palette false) "origin" "main"
        "refs/remotes/origin/main" "main" "feat" "refs/heads/feat").err =
      some "failed to delete feat: fatal: delete failed" := by
  have hR := failures_abort_run bRangeFail (palette false) "origin" "main"
    "refs/remotes/origin/main" "main" "feat" ["other"]
  have hMcur := failures_abort_run bMutationsFail (palette false) "origin" "main"
    "refs/remotes/origin/main" "feat" "feat" []
  have hMoth := failures_abort_run bMutationsFail (palette false) "origin" "main"
    "refs/remotes/origin/main" "main" "feat" []
  exact ⟨hR.1 "exit status 128" (by decide),
    hR.2.1 "exit status 128" "refs/heads/feat" "refs/remotes/origin/feat" rfl,
    hR.2.2.1 "exit status 128" "refs/heads/feat" rfl,
    hMcur.2.2.2.1 "fatal: not possible to fast-forward" "refs/heads/feat"
      "refs/remotes/origin/feat" ⟨"aaa", "bbb"⟩ rfl (by decide) (by decide) rfl rfl,
    hMoth.2.2.2.2.1 "fatal: update-ref failed" "refs/heads/feat"
      "refs/remotes/origin/feat" ⟨"aaa", "bbb"⟩ rfl (by decide) (by decide)
      (by decide) rfl,
    hMcur.2.2.2.2.2.1 "fatal: checkout failed" "refs/heads/feat"
      ⟨"ccc", "ddd"⟩ rfl (by decide) rfl rfl,
    hMoth.2.2.2.2.2.2 "fatal: delete failed" "refs/heads/feat"
      ⟨"ccc", "ddd"⟩ rfl (by decide) (by decide) rfl⟩

/-- With an empty tracked current branch and a nonempty branch name, one
loop iteration keeps the tracked current branch empty and issues neither a
fast-forward-only working-state update nor a checkout switch. -/
theorem syncStep_empty_cur (b : Backend) (p : Palette)
    (remote defaultBranch defaultRef branch : String) (hbr : branch ≠ "") :
    (syncStep b p remote defaultBranch defaultRef "" branch).cur = "" ∧
    ∀ eff ∈ (syncStep b p remote defaultBranch defaultRef "" branch).effs,
      (∀ ref, eff ≠ .mergeFFOnly ref) ∧ ∀ br2, eff ≠ .checkout br2 := by
  rcases hres : resolveCounterpart b remote branch with ⟨rr, g⟩
  simp only [syncStep, hres]
  by_cases hrr : rr = ""
  · simp only [hrr, ne_eq, not_true_eq_false, if_false]
    cases g with
    | false => simp
    | true =>
      simp only [if_true]
      unfold stepGone
      cases hn : NewRange b ("refs/heads/" ++ branch) defaultRef with
      | error e => simp
      | ok r =>
        by_cases hsd : (r.IsAncestor b || isSquashMerged b
            ("refs/heads/" ++ branch) defaultRef branch) = true
        · cases hd : DeleteBranch b branch <;> simp [hsd, hbr, hd]
        · simp [hsd]
  · simp only [hrr, ne_eq, not_false_eq_true, if_true]
    unfold stepResolved
    cases hn : NewRange b ("refs/heads/" ++ branch) rr with
    | error e => simp
    | ok r =>
      by_cases hid : r.IsIdentical = true
      · simp [hid]
      · by_cases hanc : r.IsAncestor b = true
        · simp only [hid, hanc, Bool.false_eq_true, if_false, if_true]
          rw [if_neg hbr]
          cases hu : UpdateRef b ("refs/heads/" ++ branch) rr <;> simp
        · simp [hid, hanc]

/-- Over a list of nonempty branch names, the loop started with an empty
tracked current branch issues no working-state update and no checkout
switch. -/
theorem syncLoop_empty_cur (b : Backend) (p : Palette)
    (remote defaultBranch defaultRef : String) (bs : List String)
    (hne : ∀ x ∈ bs, x ≠ "") :
    ∀ eff ∈ (syncLoop b p remote defaultBranch defaultRef "" bs).effs,
      (∀ ref, eff ≠ .mergeFFOnly ref) ∧ ∀ br2, eff ≠ .checkout br2 := by
  induction bs with
  | nil => simp [syncLoop]
  | cons hd tl ih =>
    have hstep := syncStep_empty_cur b p remote defaultBranch defaultRef hd
      (hne hd (by simp))
    intro eff heff
    cases herr : (syncStep b p remote defaultBranch defaultRef "" hd).err with
    | some e =>
      simp only [syncLoop, herr] at heff
      exact hstep.2 eff heff
    | none =>
      simp only [syncLoop, herr] at heff
      rw [hstep.1] at heff
      simp only [List.mem_append] at heff
      rcases heff with h | h
      · exact hstep.2 eff h
      · exact ih (fun x hx => hne x (List.mem_cons_of_mem _ hx)) eff h

/-- Claim C9: with current-branch resolution failing (detached HEAD) the run
proceeds with an empty current-branch name, and — as long as the listed
branch names are nonempty, as git guarantees — no branch takes the
checked-out code path: the whole run issues no fast-forward-only
working-state update and no checkout switch; every fast-forward is a direct
pointer move and every deletion skips the switch. -/
theorem detached_head_no_checkout_path (b : Backend) (c : Bool) (e : String)
    (bs : List String)
    (hdet : b.currentBranchOut = .error e)
    (hbs : LocalBranches b = .ok bs)
    (hne : ∀ x ∈ bs, x ≠ "") :
    ∀ eff ∈ (sync b c).effs,
      (∀ ref, eff ≠ .mergeFFOnly ref) ∧ ∀ br2, eff ≠ .checkout br2 := by
  have hcur : CurrentBranch b = .error "not on any branch" := by
    unfold CurrentBranch
    rw [hdet]
  unfold sync
  cases hmr : MainRemote b with
  | error em => simp [hmr]
  | ok remote =>
    simp only [hmr]
    cases hf : Fetch b remote with
    | error ef =>
      simp only [hf]
      intro eff heff
      simp only [List.mem_singleton] at heff
      subst heff
      exact ⟨fun ref => by simp, fun br2 => by simp⟩
    | ok u =>
      simp only [hf, hbs, hcur]
      intro eff heff
      simp only [List.mem_cons] at heff
      rcases heff with h | h
      · subst h
        exact ⟨fun ref => by simp, fun br2 => by simp⟩
      · exact syncLoop_empty_cur b (palette c) remote (DefaultBranch b remote)
          ("refs/remotes/" ++ remote ++ "/" ++ DefaultBranch b remote) bs hne eff h

/-- Witness for `detached_head_no_checkout_path` at a concrete detached
backend whose branch `feat` is fast-forwarded by a pointer move. -/
theorem detached_head_no_checkout_path_witness :
    Effect.mergeFFOnly "refs/remotes/origin/feat" ∉ (sync bDetached false).effs ∧
    Effect.checkout "main" ∉ (sync bDetached false).effs ∧
    Effect.updateRef "refs/heads/feat" "refs/remotes/origin/feat" ∈
      (sync bDetached false).effs := by
  have h := detached_head_no_checkout_path bDetached false "exit status 1" ["feat"]
    rfl rfl (by decide)
  exact ⟨fun hmem => (h _ hmem).1 "refs/remotes/origin/feat" rfl,
    fun hmem => (h _ hmem).2 "main" rfl, by decide⟩

/-- A steady branch's iteration produces no stdout line, no mutation and no
error, and leaves the tracked current branch unchanged (it may warn). -/
theorem syncStep_steady (b : Backend) (p : Palette)
    (remote defaultBranch defaultRef cur branch : String)
    (hst : steadyBranch b remote defaultRef branch) :
    (syncStep b p remote defaultBranch defaultRef cur branch).cur = cur ∧
    (syncStep b p remote defaultBranch defaultRef cur branch).out = [] ∧
    (syncStep b p remote defaultBranch defaultRef cur branch).effs = [] ∧
    (syncStep b p remote defaultBranch defaultRef cur branch).err = none := by
  rcases hres : resolveCounterpart b remote branch with ⟨rr, g⟩
  unfold steadyBranch at hst
  rw [hres] at hst
  simp only [syncStep, hres]
  by_cases hrr : rr = ""
  · subst hrr
    simp only [ne_eq, not_true_eq_false, if_false] at hst ⊢
    cases g with
    | false => simp
    | true =>
      simp only [if_true] at hst ⊢
      obtain ⟨r, hn, hanc, hsq⟩ := hst
      unfold stepGone
      rw [hn]
      simp [hanc, hsq]
  · simp only [ne_eq, hrr, not_false_eq_true, if_true] at hst ⊢
    obtain ⟨r, hn, hcase⟩ := hst
    unfold stepResolved
    rw [hn]
    rcases hcase with hid | hanc
    · simp [hid]
    · by_cases hid : r.IsIdentical = true
      · simp [hid]
      · simp [hid, hanc]

/-- Over a list of steady branches, the loop produces no stdout, no
mutation and no error, from any starting current branch. -/
theorem syncLoop_steady (b : Backend) (p : Palette)
    (remote defaultBranch defaultRef : String) (bs : List String) :
    ∀ cur, (∀ br ∈ bs, steadyBranch b remote defaultRef br) →
      (syncLoop b p remote defaultBranch defaultRef cur bs).out = [] ∧
      (syncLoop b p remote defaultBranch defaultRef cur bs).effs = [] ∧
      (syncLoop b p remote defaultBranch defaultRef cur bs).err = none := by
  induction bs with
  | nil => intro cur _; simp [syncLoop]
  | cons hd tl ih =>
    intro cur hst
    have hs := syncStep_steady b p remote defaultBranch defaultRef cur hd
      (hst hd (by simp))
    have ht := ih cur fun x hx => hst x (List.mem_cons_of_mem _ hx)
    simp only [syncLoop, hs.2.2.2]
    rw [hs.1]
    simp [hs.2.1, hs.2.2.1, ht.1, ht.2.1, ht.2.2]

/-- Claim C8 (amended): over the steady state that a completed run leaves
behind — every surviving branch identical to its counterpart, divergent
(warning only), gone but unmerged (warning only), or without a counterpart;
fast-forwarded branches having become identical and deleted branches being
absent — a rerun performs no mutation beyond the fetch, prints no update or
delete line, and completes without error.  Warnings are emitted again
rather than silenced (see the counterexample). -/
theorem second_run_no_mutations (b : Backend) (c : Bool) (remote : String)
    (bs : List String)
    (hrem : MainRemote b = .ok remote)
    (hfetch : Fetch b remote = .ok ())
    (hbs : LocalBranches b = .ok bs)
    (hsteady : ∀ br ∈ bs, steadyBranch b remote
        ("refs/remotes/" ++ remote ++ "/" ++ DefaultBranch b remote) br) :
    (sync b c).out = [] ∧ (sync b c).effs = [.fetch remote] ∧
    (sync b c).err = none := by
  unfold sync
  simp only [hrem, hfetch, hbs]
  have hl := syncLoop_steady b (palette c) remote (DefaultBranch b remote)
    ("refs/remotes/" ++ remote ++ "/" ++ DefaultBranch b remote) bs
    (match CurrentBranch b with
      | .ok s => s
      | .error _ => "")
    hsteady
  simp [hl.1, hl.2.1, hl.2.2]

/-- Witness for `second_run_no_mutations` at a concrete steady backend (a
diverged branch that only warns). -/
theorem second_run_no_mutations_witness :
    (sync bDiverged false).out = [] ∧
    (sync bDiverged false).effs = [.fetch "origin"] ∧
    (sync bDiverged false).err = none := by
  refine second_run_no_mutations bDiverged false "origin" ["main"] rfl rfl rfl ?_
  intro br hbr
  simp only [List.mem_singleton] at hbr
  subst hbr
  simp only [steadyBranch]
  have hres : resolveCounterpart bDiverged "origin" "main" =
      ("refs/remotes/origin/main", false) := by decide
  rw [hres]
  rw [if_pos (show ("refs/remotes/origin/main" : String) ≠ "" by decide)]
  exact ⟨⟨"aaa", "bbb"⟩, rfl, Or.inr (by decide)⟩

/-- Claim C8 counterexample: the completed run over `bDiverged` performs no
mutation at all — the repository is left exactly as found, so with no
intervening changes an immediate second run is the very same computation —
yet the run emits an unpushed-commits warning.  The second run therefore
warns as well, and branch `main` does not reach UpToDate, contradicting
"no mutations and no warnings on the second run (every branch reaches
UpToDate or is already absent)". -/
theorem idempotence_counterexample :
    (sync bDiverged false).err = none ∧
    (sync bDiverged false).effs = [.fetch "origin"] ∧
    (sync bDiverged false).warn = [unpushedWarning "main"] :=
  ⟨by decide, by decide, by decide⟩

end GhSync
